import Mathlib

/-!
Shallow embedding of `src/lib/KeyEventManager.js` from the react-hotkeys
repository: the central coordinator that owns a singleton lifecycle, routes
key events to a focus-scoped or a global matching engine, records the last
event it did not delegate, and answers history queries over the focus-scoped
engine's current event.

The two matching engines (`FocusOnlyKeyEventStrategy`, `GlobalKeyEventStrategy`)
and the classifier (`isFromFocusOnlyComponent`) are external collaborators whose
code is not part of the provided sources; following the spec they are modelled
as parameters: arbitrary state-transition implementations for the engines and an
arbitrary pure boolean function for the classifier.  JavaScript mutation of
`this` is embedded as explicit state passing, `undefined` as `Option.none`, and
a thrown `TypeError` as an `Option.none` result of a fallible function.
-/

/-- Opaque identifier naming a live focus scope in the component tree. -/
abbrev FocusTreeId := Nat

/-- Opaque identifier returned on registration within a scope. -/
abbrev ComponentId := Nat

/-- Mapping from action name to key expression, passed through unmodified.
JavaScript object literals are embedded as association lists; `{}` is `[]`. -/
abbrev KeyMap := List (String × String)

/-- Mapping from action name to a handler callback (modelled by an opaque
numeric identity), passed through unmodified. -/
abbrev HandlerMap := List (String × Nat)

/-- Opaque options blob forwarded unmodified. -/
abbrev Options := Nat

/-- Opaque event-options blob forwarded unmodified to the global engine. -/
abbrev EventOptions := Nat

/-- Leveled diagnostic sink, identified by its level string. -/
structure Logger where
  logLevel : String
deriving DecidableEq, Repr

/-- Configuration handed to `getInstance`: an optional logger (absent field of
the JavaScript configuration object is `none`) plus the remaining settings,
forwarded unmodified to both matching engines. -/
structure Configuration where
  logger : Option Logger
  settings : Nat
deriving DecidableEq, Repr

/-- A native-like key event as delivered by the hosting UI layer.  Besides the
`key`, `type` and `nativeEvent` fields that `_recordLastSeenEvent` extracts it
carries further data (`otherData`) which that extraction must not copy. -/
structure KeyEvent where
  key : String
  type : String
  nativeEvent : Nat
  otherData : Nat
deriving DecidableEq, Repr

/-- The snapshot `{key, type, nativeEvent}` stored in `lastEventSeen` by
`_recordLastSeenEvent`. -/
structure LastSeenEvent where
  key : String
  type : String
  nativeEvent : Nat
deriving DecidableEq, Repr

/-- The focus-scoped engine's `currentEvent` snapshot `{key, type, handled}`,
read (never written) by the coordinator in `reactAppHistoryWithEvent`. -/
structure CurrentEvent where
  key : String
  type : String
  handled : Bool
deriving DecidableEq, Repr

/-- Result of the history oracle `reactAppHistoryWithEvent`: the strings
returned by the JavaScript function. -/
inductive EventHistory where
  | handled
  | seen
  | unseen
deriving DecidableEq, Repr

/-- Modelled from the spec: the classifier `isFromFocusOnlyComponent` lives in
`src/helpers/resolving-handlers`, outside the provided sources; per the spec it
is a pure, side-effect-free boolean function of a focus-tree identifier, so the
development quantifies over arbitrary such functions. -/
def Classifier : Type := FocusTreeId → Bool

/-- Modelled from the spec: `FocusOnlyKeyEventStrategy` is an external
collaborator whose code is outside the provided sources.  Per the spec it
exposes registration, update, removal and key-event handling over its own
private state `σ` (embedded as explicit state passing), plus a readable
`currentEvent` snapshot which may be absent.  The engine-defined
bubbling-continuation result of `handle*` is a JavaScript value, embedded as
`Option ρ` so that `none` stands for `undefined`.  `newStrategy` embeds the
constructor call `new FocusOnlyKeyEventStrategy({configuration, logger})`. -/
structure FocusOnlyKeyEventStrategy (σ ρ : Type) where
  newStrategy : Configuration → Logger → σ
  addHotKeys : σ → KeyMap → HandlerMap → Options → ComponentId × σ
  updateHotKeys : σ → FocusTreeId → ComponentId → KeyMap → HandlerMap → Options → σ
  removeHotKeys : σ → FocusTreeId → ComponentId → Bool × σ
  handleKeydown : σ → KeyEvent → FocusTreeId → ComponentId → Options → Option ρ × σ
  handleKeypress : σ → KeyEvent → FocusTreeId → ComponentId → Options → Option ρ × σ
  handleKeyup : σ → KeyEvent → FocusTreeId → ComponentId → Options → Option ρ × σ
  currentEvent : σ → Option CurrentEvent

/-- Modelled from the spec: `GlobalKeyEventStrategy` is an external collaborator
whose code is outside the provided sources.  Per the spec it exposes
registration, update, removal and unconditional key-event handling over its own
private state `σ`.  `newStrategy` embeds
`new GlobalKeyEventStrategy({configuration, logger}, this)`; the back-reference
to the coordinator is modelled by the coordinator's object identity. -/
structure GlobalKeyEventStrategy (σ ρ : Type) where
  newStrategy : Configuration → Logger → Nat → σ
  addHotKeys : σ → KeyMap → HandlerMap → Options → EventOptions → ComponentId × σ
  updateHotKeys : σ → ComponentId → KeyMap → HandlerMap → Options → EventOptions → σ
  removeHotKeys : σ → ComponentId → Bool × σ
  handleKeydown : σ → KeyEvent → ρ × σ
  handleKeypress : σ → KeyEvent → ρ × σ
  handleKeyup : σ → KeyEvent → ρ × σ

/-- State of one `KeyEventManager` object: its mutable instance fields together
with an allocation identity `objId` standing for the JavaScript object
reference produced by `new`. -/
structure KeyEventManager (σF σG : Type) where
  objId : Nat
  logger : Logger
  focusOnlyEventStrategy : σF
  globalEventStrategy : σG
  lastEventSeen : Option LastSeenEvent

namespace KeyEventManager

variable {σF σG ρ : Type}

/-- The constructor body: the logger defaults to `new Logger('warn')` when the
configuration carries none, both engines are constructed with the configuration
and that logger (the global one also receiving `this`), and `lastEventSeen`
starts as `null`.  `objId` is the fresh allocation identity of the `new` call. -/
def newKeyEventManager (F : FocusOnlyKeyEventStrategy σF ρ)
    (G : GlobalKeyEventStrategy σG ρ) (configuration : Configuration)
    (objId : Nat) : KeyEventManager σF σG :=
  let logger := configuration.logger.getD { logLevel := "warn" }
  { objId := objId
    logger := logger
    focusOnlyEventStrategy := F.newStrategy configuration logger
    globalEventStrategy := G.newStrategy configuration logger objId
    lastEventSeen := none }

/-- The static fields of the `KeyEventManager` class: the singleton slot
`this.instance` plus the next free allocation identity standing for the
JavaScript heap. -/
structure Statics (σF σG : Type) where
  inst : Option (KeyEventManager σF σG)
  nextObjId : Nat

/-- `static getInstance(configuration = {})`: returns the existing instance if
one exists, otherwise constructs one and stores it in the singleton slot. -/
def getInstance (F : FocusOnlyKeyEventStrategy σF ρ)
    (G : GlobalKeyEventStrategy σG ρ) (s : Statics σF σG)
    (configuration : Configuration) :
    KeyEventManager σF σG × Statics σF σG :=
  match s.inst with
  | some m => (m, s)
  | none =>
      let m := newKeyEventManager F G configuration s.nextObjId
      (m, { inst := some m, nextObjId := s.nextObjId + 1 })

/-- `static clear()`: `delete this.instance` discards the singleton slot and
nothing else. -/
def clear (s : Statics σF σG) : Statics σF σG :=
  { s with inst := none }

/-- `addHotKeys(actionNameToKeyMap = {}, actionNameToHandlersMap = {}, options)`
forwards to the focus-only strategy; an omitted (`none`) mapping argument takes
the JavaScript default parameter value `{}`. -/
def addHotKeys (F : FocusOnlyKeyEventStrategy σF ρ) (m : KeyEventManager σF σG)
    (actionNameToKeyMap : Option KeyMap) (actionNameToHandlersMap : Option HandlerMap)
    (options : Options) : ComponentId × KeyEventManager σF σG :=
  let r := F.addHotKeys m.focusOnlyEventStrategy (actionNameToKeyMap.getD [])
    (actionNameToHandlersMap.getD []) options
  (r.1, { m with focusOnlyEventStrategy := r.2 })

/-- `updateHotKeys(focusTreeId, componentId, actionNameToKeyMap = {},
actionNameToHandlersMap = {}, options)` forwards to the focus-only strategy. -/
def updateHotKeys (F : FocusOnlyKeyEventStrategy σF ρ) (m : KeyEventManager σF σG)
    (focusTreeId : FocusTreeId) (componentId : ComponentId)
    (actionNameToKeyMap : Option KeyMap) (actionNameToHandlersMap : Option HandlerMap)
    (options : Options) : KeyEventManager σF σG :=
  let s := F.updateHotKeys m.focusOnlyEventStrategy focusTreeId componentId
    (actionNameToKeyMap.getD []) (actionNameToHandlersMap.getD []) options
  { m with focusOnlyEventStrategy := s }

/-- `removeHotKeys(focusTreeId, componentId)` forwards to the focus-only
strategy and returns its boolean unmodified. -/
def removeHotKeys (F : FocusOnlyKeyEventStrategy σF ρ) (m : KeyEventManager σF σG)
    (focusTreeId : FocusTreeId) (componentId : ComponentId) :
    Bool × KeyEventManager σF σG :=
  let r := F.removeHotKeys m.focusOnlyEventStrategy focusTreeId componentId
  (r.1, { m with focusOnlyEventStrategy := r.2 })

/-- `_recordLastSeenEvent({key, type, nativeEvent})`: overwrites
`this.lastEventSeen` with exactly those three fields of the event. -/
def recordLastSeenEvent (m : KeyEventManager σF σG) (event : KeyEvent) :
    KeyEventManager σF σG :=
  let snapshot : LastSeenEvent :=
    { key := event.key, type := event.type, nativeEvent := event.nativeEvent }
  { m with lastEventSeen := some snapshot }

/-- `handleKeydown(event, focusTreeId, componentId, options)`: if the classifier
accepts `focusTreeId`, delegate to the focus-only strategy and return its
result; otherwise record the event and return `undefined` (`none`). -/
def handleKeydown (F : FocusOnlyKeyEventStrategy σF ρ)
    (isFromFocusOnlyComponent : Classifier) (m : KeyEventManager σF σG)
    (event : KeyEvent) (focusTreeId : FocusTreeId) (componentId : ComponentId)
    (options : Options) : Option ρ × KeyEventManager σF σG :=
  if isFromFocusOnlyComponent focusTreeId then
    let r := F.handleKeydown m.focusOnlyEventStrategy event focusTreeId componentId options
    (r.1, { m with focusOnlyEventStrategy := r.2 })
  else
    (none, recordLastSeenEvent m event)

/-- `handleKeypress(event, focusTreeId, componentId, options)`: sibling of
`handleKeydown` delegating to the strategy's `handleKeypress`. -/
def handleKeypress (F : FocusOnlyKeyEventStrategy σF ρ)
    (isFromFocusOnlyComponent : Classifier) (m : KeyEventManager σF σG)
    (event : KeyEvent) (focusTreeId : FocusTreeId) (componentId : ComponentId)
    (options : Options) : Option ρ × KeyEventManager σF σG :=
  if isFromFocusOnlyComponent focusTreeId then
    let r := F.handleKeypress m.focusOnlyEventStrategy event focusTreeId componentId options
    (r.1, { m with focusOnlyEventStrategy := r.2 })
  else
    (none, recordLastSeenEvent m event)

/-- `handleKeyup(event, focusTreeId, componentId, options)`: sibling of
`handleKeydown` delegating to the strategy's `handleKeyup`. -/
def handleKeyup (F : FocusOnlyKeyEventStrategy σF ρ)
    (isFromFocusOnlyComponent : Classifier) (m : KeyEventManager σF σG)
    (event : KeyEvent) (focusTreeId : FocusTreeId) (componentId : ComponentId)
    (options : Options) : Option ρ × KeyEventManager σF σG :=
  if isFromFocusOnlyComponent focusTreeId then
    let r := F.handleKeyup m.focusOnlyEventStrategy event focusTreeId componentId options
    (r.1, { m with focusOnlyEventStrategy := r.2 })
  else
    (none, recordLastSeenEvent m event)

/-- `addGlobalHotKeys(actionNameToKeyMap = {}, actionNameToHandlersMap = {},
options, eventOptions)` forwards to the global strategy. -/
def addGlobalHotKeys (G : GlobalKeyEventStrategy σG ρ) (m : KeyEventManager σF σG)
    (actionNameToKeyMap : Option KeyMap) (actionNameToHandlersMap : Option HandlerMap)
    (options : Options) (eventOptions : EventOptions) :
    ComponentId × KeyEventManager σF σG :=
  let r := G.addHotKeys m.globalEventStrategy (actionNameToKeyMap.getD [])
    (actionNameToHandlersMap.getD []) options eventOptions
  (r.1, { m with globalEventStrategy := r.2 })

/-- `updateGlobalHotKeys(componentId, actionNameToKeyMap = {},
actionNameToHandlersMap = {}, options, eventOptions)` forwards to the global
strategy. -/
def updateGlobalHotKeys (G : GlobalKeyEventStrategy σG ρ) (m : KeyEventManager σF σG)
    (componentId : ComponentId) (actionNameToKeyMap : Option KeyMap)
    (actionNameToHandlersMap : Option HandlerMap) (options : Options)
    (eventOptions : EventOptions) : KeyEventManager σF σG :=
  let s := G.updateHotKeys m.globalEventStrategy componentId (actionNameToKeyMap.getD [])
    (actionNameToHandlersMap.getD []) options eventOptions
  { m with globalEventStrategy := s }

/-- `removeGlobalHotKeys(componentId)` forwards to the global strategy and
returns its boolean unmodified. -/
def removeGlobalHotKeys (G : GlobalKeyEventStrategy σG ρ) (m : KeyEventManager σF σG)
    (componentId : ComponentId) : Bool × KeyEventManager σF σG :=
  let r := G.removeHotKeys m.globalEventStrategy componentId
  (r.1, { m with globalEventStrategy := r.2 })

/-- `handleGlobalKeydown(event)`: unconditional forward to the global
strategy. -/
def handleGlobalKeydown (G : GlobalKeyEventStrategy σG ρ) (m : KeyEventManager σF σG)
    (event : KeyEvent) : ρ × KeyEventManager σF σG :=
  let r := G.handleKeydown m.globalEventStrategy event
  (r.1, { m with globalEventStrategy := r.2 })

/-- `handleGlobalKeypress(event)`: unconditional forward to the global
strategy. -/
def handleGlobalKeypress (G : GlobalKeyEventStrategy σG ρ) (m : KeyEventManager σF σG)
    (event : KeyEvent) : ρ × KeyEventManager σF σG :=
  let r := G.handleKeypress m.globalEventStrategy event
  (r.1, { m with globalEventStrategy := r.2 })

/-- `handleGlobalKeyup(event)`: unconditional forward to the global
strategy. -/
def handleGlobalKeyup (G : GlobalKeyEventStrategy σG ρ) (m : KeyEventManager σF σG)
    (event : KeyEvent) : ρ × KeyEventManager σF σG :=
  let r := G.handleKeyup m.globalEventStrategy event
  (r.1, { m with globalEventStrategy := r.2 })

/-- `reactAppHistoryWithEvent(key, type)` reads the focus-only strategy's
`currentEvent` and compares its `key`, `type` and `handled` fields.  The
JavaScript body dereferences `currentEvent.key` without a presence check, so an
absent `currentEvent` raises a `TypeError`; the embedding returns `none` for
that thrown exception and `some` of the produced string otherwise. -/
def reactAppHistoryWithEvent (F : FocusOnlyKeyEventStrategy σF ρ)
    (m : KeyEventManager σF σG) (key : String) (type : String) :
    Option EventHistory :=
  match F.currentEvent m.focusOnlyEventStrategy with
  | none => none
  | some currentEvent =>
      if currentEvent.key == key && currentEvent.type == type then
        if currentEvent.handled then
          some EventHistory.handled
        else
          some EventHistory.seen
      else
        some EventHistory.unseen

/-!
Concrete instantiations used to evaluate the theorems on concrete inputs: a
focus-only strategy whose state is a log of operation names, a global strategy
of the same shape, a strategy whose state is exactly its `currentEvent`
snapshot, a classifier accepting the even focus tree ids, and sample managers
and events.
-/

/-- Concrete focus-only strategy: the state logs operation names and the
`handle*` results reflect the event key. -/
def demoFocus : FocusOnlyKeyEventStrategy (List String) Bool where
  newStrategy := fun _ _ => []
  addHotKeys := fun s _ _ _ => (s.length, "addHotKeys" :: s)
  updateHotKeys := fun s _ _ _ _ _ => "updateHotKeys" :: s
  removeHotKeys := fun s _ _ => (s.length % 2 == 0, "removeHotKeys" :: s)
  handleKeydown := fun s e _ _ _ => (some (e.key == "a"), "handleKeydown" :: s)
  handleKeypress := fun s e _ _ _ => (some (e.key == "b"), "handleKeypress" :: s)
  handleKeyup := fun s _ _ _ _ => (none, "handleKeyup" :: s)
  currentEvent := fun s =>
    if s.length == 0 then none else some { key := "a", type := "keydown", handled := s.length % 2 == 0 }

/-- Concrete global strategy: the state logs operation names. -/
def demoGlobal : GlobalKeyEventStrategy (List String) Bool where
  newStrategy := fun _ _ n => [toString n]
  addHotKeys := fun s _ _ _ _ => (s.length + 100, "addGlobalHotKeys" :: s)
  updateHotKeys := fun s _ _ _ _ _ => "updateGlobalHotKeys" :: s
  removeHotKeys := fun s _ => (s.length % 2 == 1, "removeGlobalHotKeys" :: s)
  handleKeydown := fun s e => (e.key == "g", "handleGlobalKeydown" :: s)
  handleKeypress := fun s e => (e.key == "h", "handleGlobalKeypress" :: s)
  handleKeyup := fun s e => (e.key == "i", "handleGlobalKeyup" :: s)

/-- Concrete focus-only strategy whose state is exactly its `currentEvent`
snapshot, for exercising the history oracle. -/
def demoFocusCur : FocusOnlyKeyEventStrategy (Option CurrentEvent) Bool where
  newStrategy := fun _ _ => none
  addHotKeys := fun s _ _ _ => (0, s)
  updateHotKeys := fun s _ _ _ _ _ => s
  removeHotKeys := fun s _ _ => (true, s)
  handleKeydown := fun _ e _ _ _ => (some true, some { key := e.key, type := e.type, handled := false })
  handleKeypress := fun s _ _ _ _ => (some true, s)
  handleKeyup := fun s _ _ _ _ => (none, s)
  currentEvent := fun s => s

/-- Concrete classifier accepting exactly the even focus tree ids. -/
def demoClassifier : Classifier := fun focusTreeId => focusTreeId % 2 == 0

/-- Concrete manager state over the logging strategies. -/
def demoManager : KeyEventManager (List String) (List String) where
  objId := 0
  logger := { logLevel := "warn" }
  focusOnlyEventStrategy := ["addHotKeys"]
  globalEventStrategy := ["0"]
  lastEventSeen := none

/-- Concrete manager state over the snapshot strategy, with a chosen
`currentEvent`. -/
def demoManagerCur (cur : Option CurrentEvent) :
    KeyEventManager (Option CurrentEvent) (List String) where
  objId := 1
  logger := { logLevel := "debug" }
  focusOnlyEventStrategy := cur
  globalEventStrategy := []
  lastEventSeen := none

/-- Concrete input event; `otherData` is event payload outside the recorded
snapshot. -/
def demoEvent : KeyEvent where
  key := "a"
  type := "keydown"
  nativeEvent := 7
  otherData := 42

/-- C1: for every event and every focus tree id the Classifier rejects, each of
`handleKeydown`, `handleKeypress` and `handleKeyup` does not delegate to the
focus-scoped engine (the result is an expression independent of the strategy
`F`), returns `undefined` (`none`), and overwrites `lastEventSeen` with exactly
the `key`, `type` and `nativeEvent` fields extracted from the input event. -/
theorem handle_unrecognized_scope_records {σF σG ρ : Type}
    (F : FocusOnlyKeyEventStrategy σF ρ) (cls : Classifier)
    (m : KeyEventManager σF σG) (event : KeyEvent) (focusTreeId : FocusTreeId)
    (componentId : ComponentId) (options : Options)
    (h : cls focusTreeId = false) :
    handleKeydown F cls m event focusTreeId componentId options =
      (none, { m with lastEventSeen := some ⟨event.key, event.type, event.nativeEvent⟩ }) ∧
    handleKeypress F cls m event focusTreeId componentId options =
      (none, { m with lastEventSeen := some ⟨event.key, event.type, event.nativeEvent⟩ }) ∧
    handleKeyup F cls m event focusTreeId componentId options =
      (none, { m with lastEventSeen := some ⟨event.key, event.type, event.nativeEvent⟩ }) := by
  refine ⟨?_, ?_, ?_⟩ <;>
    simp [handleKeydown, handleKeypress, handleKeyup, recordLastSeenEvent, h]

/-- Witness for C1: the classifier rejects focus tree id 3 and `handleKeydown`
records the event snapshot and returns `undefined`. -/
theorem handle_unrecognized_scope_records_witness :
    demoClassifier 3 = false ∧
    handleKeydown demoFocus demoClassifier demoManager demoEvent 3 5 0 =
      (none, { demoManager with lastEventSeen := some ⟨"a", "keydown", 7⟩ }) :=
  ⟨by decide,
    (handle_unrecognized_scope_records demoFocus demoClassifier demoManager
      demoEvent 3 5 0 (by decide)).1⟩

/-- C2: for every event, focus tree id, component id and options for which the
Classifier answers true, each `handle*` call returns exactly the value the
focus-scoped engine's corresponding call returns on the same arguments, and
`lastEventSeen` is unchanged. -/
theorem handle_focus_scoped_delegates {σF σG ρ : Type}
    (F : FocusOnlyKeyEventStrategy σF ρ) (cls : Classifier)
    (m : KeyEventManager σF σG) (event : KeyEvent) (focusTreeId : FocusTreeId)
    (componentId : ComponentId) (options : Options)
    (h : cls focusTreeId = true) :
    (handleKeydown F cls m event focusTreeId componentId options).1 =
      (F.handleKeydown m.focusOnlyEventStrategy event focusTreeId componentId options).1 ∧
    (handleKeydown F cls m event focusTreeId componentId options).2.lastEventSeen =
      m.lastEventSeen ∧
    (handleKeypress F cls m event focusTreeId componentId options).1 =
      (F.handleKeypress m.focusOnlyEventStrategy event focusTreeId componentId options).1 ∧
    (handleKeypress F cls m event focusTreeId componentId options).2.lastEventSeen =
      m.lastEventSeen ∧
    (handleKeyup F cls m event focusTreeId componentId options).1 =
      (F.handleKeyup m.focusOnlyEventStrategy event focusTreeId componentId options).1 ∧
    (handleKeyup F cls m event focusTreeId componentId options).2.lastEventSeen =
      m.lastEventSeen := by
  refine ⟨?_, ?_, ?_, ?_, ?_, ?_⟩ <;>
    simp [handleKeydown, handleKeypress, handleKeyup, h]

/-- Witness for C2: the classifier accepts focus tree id 4 and `handleKeydown`
returns the engine's value with `lastEventSeen` untouched. -/
theorem handle_focus_scoped_delegates_witness :
    demoClassifier 4 = true ∧
    (handleKeydown demoFocus demoClassifier demoManager demoEvent 4 5 0).1 =
      (demoFocus.handleKeydown demoManager.focusOnlyEventStrategy demoEvent 4 5 0).1 ∧
    (handleKeydown demoFocus demoClassifier demoManager demoEvent 4 5 0).2.lastEventSeen =
      demoManager.lastEventSeen :=
  ⟨by decide,
    (handle_focus_scoped_delegates demoFocus demoClassifier demoManager
      demoEvent 4 5 0 (by decide)).1,
    (handle_focus_scoped_delegates demoFocus demoClassifier demoManager
      demoEvent 4 5 0 (by decide)).2.1⟩

/-- Counterexample for C3: with the focus-scoped engine's `currentEvent`
absent, `reactAppHistoryWithEvent` dereferences `currentEvent.key` on the
absent value and throws a `TypeError` (embedded result `none`) instead of
returning the string `unseen`. -/
theorem reactAppHistory_absent_counterexample :
    reactAppHistoryWithEvent demoFocusCur (demoManagerCur none) "a" "keydown" = none ∧
    reactAppHistoryWithEvent demoFocusCur (demoManagerCur none) "a" "keydown" ≠
      some EventHistory.unseen := by
  constructor <;> decide

/-- C3 amended: for every key and type, when the focus-scoped engine's
`currentEvent` is absent, `reactAppHistoryWithEvent` raises a `TypeError` on
the unchecked field access and produces no result at all (embedded as `none`),
rather than returning `unseen`. -/
theorem reactAppHistory_absent_throws {σF σG ρ : Type}
    (F : FocusOnlyKeyEventStrategy σF ρ) (m : KeyEventManager σF σG)
    (key type : String)
    (h : F.currentEvent m.focusOnlyEventStrategy = none) :
    reactAppHistoryWithEvent F m key type = none := by
  simp [reactAppHistoryWithEvent, h]

/-- Witness for the amended C3: the concrete manager with an absent
`currentEvent` yields the thrown-exception result. -/
theorem reactAppHistory_absent_throws_witness :
    reactAppHistoryWithEvent demoFocusCur (demoManagerCur none) "b" "keyup" = none :=
  reactAppHistory_absent_throws demoFocusCur (demoManagerCur none) "b" "keyup" rfl

/-- C4: when the focus-scoped engine's `currentEvent` is present, the history
oracle answers `handled` when key, type and the handled flag all match, `seen`
when key and type match but the event was not handled, and `unseen` when the
key or the type differs. -/
theorem reactAppHistory_present_cases {σF σG ρ : Type}
    (F : FocusOnlyKeyEventStrategy σF ρ) (m : KeyEventManager σF σG)
    (key type : String) (ce : CurrentEvent)
    (h : F.currentEvent m.focusOnlyEventStrategy = some ce) :
    (ce.key = key → ce.type = type → ce.handled = true →
      reactAppHistoryWithEvent F m key type = some EventHistory.handled) ∧
    (ce.key = key → ce.type = type → ce.handled = false →
      reactAppHistoryWithEvent F m key type = some EventHistory.seen) ∧
    ((ce.key ≠ key ∨ ce.type ≠ type) →
      reactAppHistoryWithEvent F m key type = some EventHistory.unseen) := by
  refine ⟨?_, ?_, ?_⟩
  · intro hk ht hh
    simp [reactAppHistoryWithEvent, h, hk, ht, hh]
  · intro hk ht hh
    simp [reactAppHistoryWithEvent, h, hk, ht, hh]
  · intro hm
    have hcond : (ce.key == key && ce.type == type) = false := by
      rcases hm with hk | ht
      · simp [beq_eq_false_iff_ne, hk]
      · simp [beq_eq_false_iff_ne, ht]
    simp [reactAppHistoryWithEvent, h, hcond]

/-- Witness for C4: a present `currentEvent` matching key, type and handled
yields `handled`. -/
theorem reactAppHistory_present_cases_witness :
    reactAppHistoryWithEvent demoFocusCur
      (demoManagerCur (some ⟨"a", "keydown", true⟩)) "a" "keydown" =
      some EventHistory.handled :=
  (reactAppHistory_present_cases demoFocusCur
    (demoManagerCur (some ⟨"a", "keydown", true⟩)) "a" "keydown"
    ⟨"a", "keydown", true⟩ rfl).1 rfl rfl rfl

/-- C5: each `handleGlobal*` call forwards unconditionally to the global
engine — the operation takes no classifier and its result is determined by the
engine call alone — returns the engine's result unchanged, and leaves
`lastEventSeen` unchanged. -/
theorem handleGlobal_forwards {σF σG ρ : Type}
    (G : GlobalKeyEventStrategy σG ρ) (m : KeyEventManager σF σG)
    (event : KeyEvent) :
    (handleGlobalKeydown G m event).1 = (G.handleKeydown m.globalEventStrategy event).1 ∧
    (handleGlobalKeydown G m event).2 =
      { m with globalEventStrategy := (G.handleKeydown m.globalEventStrategy event).2 } ∧
    (handleGlobalKeydown G m event).2.lastEventSeen = m.lastEventSeen ∧
    (handleGlobalKeypress G m event).1 = (G.handleKeypress m.globalEventStrategy event).1 ∧
    (handleGlobalKeypress G m event).2 =
      { m with globalEventStrategy := (G.handleKeypress m.globalEventStrategy event).2 } ∧
    (handleGlobalKeypress G m event).2.lastEventSeen = m.lastEventSeen ∧
    (handleGlobalKeyup G m event).1 = (G.handleKeyup m.globalEventStrategy event).1 ∧
    (handleGlobalKeyup G m event).2 =
      { m with globalEventStrategy := (G.handleKeyup m.globalEventStrategy event).2 } ∧
    (handleGlobalKeyup G m event).2.lastEventSeen = m.lastEventSeen := by
  refine ⟨?_, ?_, ?_, ?_, ?_, ?_, ?_, ?_, ?_⟩ <;>
    simp [handleGlobalKeydown, handleGlobalKeypress, handleGlobalKeyup]

/-- Concrete configuration with no logger, taking the `warn` default. -/
def demoConfig : Configuration where
  logger := none
  settings := 0

/-- Concrete statics: the singleton slot holds `demoManager` and the next
allocation identity is past `demoManager.objId`. -/
def demoStatics : Statics (List String) (List String) where
  inst := some demoManager
  nextObjId := 1

/-- C6: two `getInstance` calls with no intervening reset return the very same
instance, and the second call's configuration argument has no effect on the
singleton state — construction happens only when no instance exists. -/
theorem getInstance_identity_stable {σF σG ρ : Type}
    (F : FocusOnlyKeyEventStrategy σF ρ) (G : GlobalKeyEventStrategy σG ρ)
    (s : Statics σF σG) (c1 c2 : Configuration) :
    (getInstance F G (getInstance F G s c1).2 c2).1 = (getInstance F G s c1).1 ∧
    (getInstance F G (getInstance F G s c1).2 c2).2 = (getInstance F G s c1).2 := by
  cases h : s.inst <;> simp [getInstance, h]

/-- C7: after the static `clear`, the next `getInstance` call runs the
constructor at the next allocation identity: the returned instance has
`lastEventSeen` null and freshly constructed focus-scoped and global engines,
and it is distinct from the instance previously held in the singleton slot. -/
theorem clear_then_getInstance_fresh {σF σG ρ : Type}
    (F : FocusOnlyKeyEventStrategy σF ρ) (G : GlobalKeyEventStrategy σG ρ)
    (s : Statics σF σG) (c : Configuration) (m0 : KeyEventManager σF σG)
    (_hm0 : s.inst = some m0) (hid : m0.objId < s.nextObjId) :
    (getInstance F G (clear s) c).1 = newKeyEventManager F G c s.nextObjId ∧
    (getInstance F G (clear s) c).1.lastEventSeen = none ∧
    (getInstance F G (clear s) c).1.focusOnlyEventStrategy =
      F.newStrategy c (c.logger.getD { logLevel := "warn" }) ∧
    (getInstance F G (clear s) c).1.globalEventStrategy =
      G.newStrategy c (c.logger.getD { logLevel := "warn" }) s.nextObjId ∧
    (getInstance F G (clear s) c).1 ≠ m0 := by
  have hfst : (getInstance F G (clear s) c).1 = newKeyEventManager F G c s.nextObjId := by
    simp [getInstance, clear]
  refine ⟨hfst, ?_, ?_, ?_, ?_⟩
  · rw [hfst]; rfl
  · rw [hfst]; rfl
  · rw [hfst]; rfl
  · rw [hfst]
    intro he
    have hobj : s.nextObjId = m0.objId := congrArg KeyEventManager.objId he
    omega

/-- Witness for C7: resetting the concrete statics and re-fetching yields an
instance with null `lastEventSeen` that differs from the previous one. -/
theorem clear_then_getInstance_fresh_witness :
    demoStatics.inst = some demoManager ∧
    demoManager.objId < demoStatics.nextObjId ∧
    (getInstance demoFocus demoGlobal (clear demoStatics) demoConfig).1.lastEventSeen = none ∧
    (getInstance demoFocus demoGlobal (clear demoStatics) demoConfig).1 ≠ demoManager :=
  ⟨rfl, by decide,
    (clear_then_getInstance_fresh demoFocus demoGlobal demoStatics demoConfig
      demoManager rfl (by decide)).2.1,
    (clear_then_getInstance_fresh demoFocus demoGlobal demoStatics demoConfig
      demoManager rfl (by decide)).2.2.2.2⟩

/-- C8: state-custody invariant over every coordinator operation.  The focus
engine's state — and with it `currentEvent` — is changed only by the focus
engine's own operations: registration, update, removal and classifier-accepted
`handle*` leave it exactly as the engine call returns it, while
classifier-rejected `handle*` and every global operation leave it untouched
(`reactAppHistoryWithEvent` returns no state at all, so it is read-only by
construction).  Dually, `lastEventSeen` is written only by the classifier-
rejected `handle*` calls: no registration, update, removal, global-handle or
classifier-accepted call modifies it. -/
theorem coordinator_state_custody {σF σG ρ : Type}
    (F : FocusOnlyKeyEventStrategy σF ρ) (G : GlobalKeyEventStrategy σG ρ)
    (cls : Classifier) (m : KeyEventManager σF σG) (event : KeyEvent)
    (fT fF : FocusTreeId) (componentId : ComponentId)
    (km : Option KeyMap) (hm : Option HandlerMap) (options : Options)
    (eventOptions : EventOptions) (gcid : ComponentId)
    (hT : cls fT = true) (hF : cls fF = false) :
    (addHotKeys F m km hm options).2.focusOnlyEventStrategy =
      (F.addHotKeys m.focusOnlyEventStrategy (km.getD []) (hm.getD []) options).2 ∧
    (updateHotKeys F m fT componentId km hm options).focusOnlyEventStrategy =
      F.updateHotKeys m.focusOnlyEventStrategy fT componentId (km.getD []) (hm.getD []) options ∧
    (removeHotKeys F m fT componentId).2.focusOnlyEventStrategy =
      (F.removeHotKeys m.focusOnlyEventStrategy fT componentId).2 ∧
    (handleKeydown F cls m event fT componentId options).2.focusOnlyEventStrategy =
      (F.handleKeydown m.focusOnlyEventStrategy event fT componentId options).2 ∧
    (handleKeypress F cls m event fT componentId options).2.focusOnlyEventStrategy =
      (F.handleKeypress m.focusOnlyEventStrategy event fT componentId options).2 ∧
    (handleKeyup F cls m event fT componentId options).2.focusOnlyEventStrategy =
      (F.handleKeyup m.focusOnlyEventStrategy event fT componentId options).2 ∧
    (handleKeydown F cls m event fF componentId options).2.focusOnlyEventStrategy =
      m.focusOnlyEventStrategy ∧
    (handleKeypress F cls m event fF componentId options).2.focusOnlyEventStrategy =
      m.focusOnlyEventStrategy ∧
    (handleKeyup F cls m event fF componentId options).2.focusOnlyEventStrategy =
      m.focusOnlyEventStrategy ∧
    (addGlobalHotKeys G m km hm options eventOptions).2.focusOnlyEventStrategy =
      m.focusOnlyEventStrategy ∧
    (updateGlobalHotKeys G m gcid km hm options eventOptions).focusOnlyEventStrategy =
      m.focusOnlyEventStrategy ∧
    (removeGlobalHotKeys G m gcid).2.focusOnlyEventStrategy = m.focusOnlyEventStrategy ∧
    (handleGlobalKeydown G m event).2.focusOnlyEventStrategy = m.focusOnlyEventStrategy ∧
    (handleGlobalKeypress G m event).2.focusOnlyEventStrategy = m.focusOnlyEventStrategy ∧
    (handleGlobalKeyup G m event).2.focusOnlyEventStrategy = m.focusOnlyEventStrategy ∧
    (addHotKeys F m km hm options).2.lastEventSeen = m.lastEventSeen ∧
    (updateHotKeys F m fT componentId km hm options).lastEventSeen = m.lastEventSeen ∧
    (removeHotKeys F m fT componentId).2.lastEventSeen = m.lastEventSeen ∧
    (addGlobalHotKeys G m km hm options eventOptions).2.lastEventSeen = m.lastEventSeen ∧
    (updateGlobalHotKeys G m gcid km hm options eventOptions).lastEventSeen = m.lastEventSeen ∧
    (removeGlobalHotKeys G m gcid).2.lastEventSeen = m.lastEventSeen ∧
    (handleGlobalKeydown G m event).2.lastEventSeen = m.lastEventSeen ∧
    (handleGlobalKeypress G m event).2.lastEventSeen = m.lastEventSeen ∧
    (handleGlobalKeyup G m event).2.lastEventSeen = m.lastEventSeen ∧
    (handleKeydown F cls m event fT componentId options).2.lastEventSeen = m.lastEventSeen ∧
    (handleKeypress F cls m event fT componentId options).2.lastEventSeen = m.lastEventSeen ∧
    (handleKeyup F cls m event fT componentId options).2.lastEventSeen = m.lastEventSeen ∧
    (handleKeydown F cls m event fF componentId options).2.lastEventSeen =
      some ⟨event.key, event.type, event.nativeEvent⟩ ∧
    (handleKeypress F cls m event fF componentId options).2.lastEventSeen =
      some ⟨event.key, event.type, event.nativeEvent⟩ ∧
    (handleKeyup F cls m event fF componentId options).2.lastEventSeen =
      some ⟨event.key, event.type, event.nativeEvent⟩ := by
  repeat' constructor
  all_goals
    simp [addHotKeys, updateHotKeys, removeHotKeys, handleKeydown, handleKeypress,
      handleKeyup, addGlobalHotKeys, updateGlobalHotKeys, removeGlobalHotKeys,
      handleGlobalKeydown, handleGlobalKeypress, handleGlobalKeyup,
      recordLastSeenEvent, hT, hF]

/-- Witness for C8: the custody invariant applied to the concrete engines,
classifier and manager, read off at its first conjunct. -/
theorem coordinator_state_custody_witness :
    demoClassifier 2 = true ∧ demoClassifier 3 = false ∧
    (addHotKeys demoFocus demoManager none none 0).2.focusOnlyEventStrategy =
      (demoFocus.addHotKeys demoManager.focusOnlyEventStrategy [] [] 0).2 :=
  ⟨by decide, by decide,
    (coordinator_state_custody demoFocus demoGlobal demoClassifier demoManager
      demoEvent 2 3 5 none none 0 9 4 (by decide) (by decide)).1⟩

/-- C9: in every call to `addHotKeys`, `updateHotKeys`, `addGlobalHotKeys` or
`updateGlobalHotKeys` in which the key-map argument or the handler-map argument
is omitted (`none`), the omitted argument is replaced by the empty mapping and
the call is forwarded to the owning engine, whatever the other argument is (an
omitted other argument likewise defaults to empty); the operations are total,
so no failure is raised.  Each operation gets one conjunct per omissible
argument, quantified over the remaining argument, so single and double
omissions are all instances. -/
theorem omitted_maps_default_to_empty {σF σG ρ : Type}
    (F : FocusOnlyKeyEventStrategy σF ρ) (G : GlobalKeyEventStrategy σG ρ)
    (m : KeyEventManager σF σG) (focusTreeId : FocusTreeId)
    (componentId gcid : ComponentId) (km : Option KeyMap)
    (hm : Option HandlerMap) (options : Options) (eventOptions : EventOptions) :
    addHotKeys F m none hm options =
      ((F.addHotKeys m.focusOnlyEventStrategy [] (hm.getD []) options).1,
        { m with focusOnlyEventStrategy := (F.addHotKeys m.focusOnlyEventStrategy [] (hm.getD []) options).2 }) ∧
    addHotKeys F m km none options =
      ((F.addHotKeys m.focusOnlyEventStrategy (km.getD []) [] options).1,
        { m with focusOnlyEventStrategy := (F.addHotKeys m.focusOnlyEventStrategy (km.getD []) [] options).2 }) ∧
    updateHotKeys F m focusTreeId componentId none hm options =
      { m with focusOnlyEventStrategy :=
          F.updateHotKeys m.focusOnlyEventStrategy focusTreeId componentId [] (hm.getD []) options } ∧
    updateHotKeys F m focusTreeId componentId km none options =
      { m with focusOnlyEventStrategy :=
          F.updateHotKeys m.focusOnlyEventStrategy focusTreeId componentId (km.getD []) [] options } ∧
    addGlobalHotKeys G m none hm options eventOptions =
      ((G.addHotKeys m.globalEventStrategy [] (hm.getD []) options eventOptions).1,
        { m with globalEventStrategy := (G.addHotKeys m.globalEventStrategy [] (hm.getD []) options eventOptions).2 }) ∧
    addGlobalHotKeys G m km none options eventOptions =
      ((G.addHotKeys m.globalEventStrategy (km.getD []) [] options eventOptions).1,
        { m with globalEventStrategy := (G.addHotKeys m.globalEventStrategy (km.getD []) [] options eventOptions).2 }) ∧
    updateGlobalHotKeys G m gcid none hm options eventOptions =
      { m with globalEventStrategy :=
          G.updateHotKeys m.globalEventStrategy gcid [] (hm.getD []) options eventOptions } ∧
    updateGlobalHotKeys G m gcid km none options eventOptions =
      { m with globalEventStrategy :=
          G.updateHotKeys m.globalEventStrategy gcid (km.getD []) [] options eventOptions } := by
  refine ⟨?_, ?_, ?_, ?_, ?_, ?_, ?_, ?_⟩ <;>
    simp [addHotKeys, updateHotKeys, addGlobalHotKeys, updateGlobalHotKeys]

/-- C10: `removeHotKeys` returns exactly the boolean the focus-scoped engine
reports for the same focus tree id and component id, and `removeGlobalHotKeys`
returns exactly the global engine's boolean, both unmodified. -/
theorem remove_returns_engine_boolean {σF σG ρ : Type}
    (F : FocusOnlyKeyEventStrategy σF ρ) (G : GlobalKeyEventStrategy σG ρ)
    (m : KeyEventManager σF σG) (focusTreeId : FocusTreeId)
    (componentId gcid : ComponentId) :
    (removeHotKeys F m focusTreeId componentId).1 =
      (F.removeHotKeys m.focusOnlyEventStrategy focusTreeId componentId).1 ∧
    (removeGlobalHotKeys G m gcid).1 = (G.removeHotKeys m.globalEventStrategy gcid).1 := by
  constructor <;> simp [removeHotKeys, removeGlobalHotKeys]

end KeyEventManager
